import Mathlib

/-!
Shallow embedding of libinfinity's infinoted runtime-reconfiguration code.

The main subject is `infinoted_config_reload` (infinoted-config-reload.c):
the function that re-applies a changed configuration to a running server.
External fallible collaborators (config parsing, DH parameter generation,
socket bind/open, storage construction, plugin loading) are modelled by an
oracle record `ReloadEnv` that fixes the outcome of each external call; the
control flow, the state mutations and their order are translated from the C
source.  GObject identity is modelled with numeric ids; creating a new
object draws a fresh id from a counter carried in the state.

Two slips present in the C source are modelled faithfully rather than
papered over: on the path where the storage swap fails and on the path
where both speculative socket opens fail, the C code calls
`g_object_unref(plugin_manager)` on a local variable that has not been
initialised yet (it is first assigned much later).  Reading an
uninitialised variable is undefined behaviour, so those paths end in
`ReloadResult.crash` instead of returning an error.

The plugin manager's public error domain (`InfinotedPluginManagerError`
from infinoted-plugin-manager.h) is embedded as well.
-/

/-- Security policy of an accepting server (`InfXmppConnectionSecurityPolicy`):
no TLS, optional TLS, or required TLS. -/
inductive SecurityPolicy where
  | noTls
  | allowTls
  | requireTls
deriving DecidableEq, Repr

/-- An IP address (`InfIpAddress`).  `any6` is the IPv6 any-address built by
`inf_ip_address_new_raw6(INFINOTED_CONFIG_RELOAD_IPV6_ANY_ADDR)`; other
addresses are opaque and compared only for equality. -/
inductive InfIpAddress where
  | any6
  | addr (a : Nat)
deriving DecidableEq, Repr

/-- `inf_ip_address_collate`: a collation function on addresses; the reload
code only ever compares its result against 0, and it is 0 exactly on equal
addresses. -/
def inf_ip_address_collate (a b : InfIpAddress) : Int :=
  if a = b then 0 else 1

/-- The configuration fields of `InfinotedOptions` that
`infinoted_config_reload` reads. -/
structure InfinotedOptions where
  listen_address : Option InfIpAddress
  port : Nat
  security_policy : SecurityPolicy
  root_directory : String
  plugins : List String
deriving DecidableEq, Repr

/-- An `InfinotedStartup`: a parsed configuration snapshot plus the
credential and SASL objects built from it.  Credentials and SASL contexts
are opaque, identified by number. -/
structure InfinotedStartup where
  options : InfinotedOptions
  credentials : Option Nat
  sasl_context : Option Nat
deriving DecidableEq, Repr

/-- The fields of an `InfdTcpServer` the reload code sets and reads. -/
structure InfdTcpServer where
  local_address : Option InfIpAddress
  local_port : Nat
deriving DecidableEq, Repr

/-- An accepting server (`InfdXmppServer`) wrapping one TCP server.  `id`
models GObject identity.  `tcp_local_port` is the `local-port` of its
`tcp-server`. -/
structure InfdXmppServer where
  id : Nat
  tcp_local_port : Nat
  security_policy : SecurityPolicy
  credentials : Option Nat
  sasl_context : Option Nat
  sasl_mechanisms : Option String
deriving DecidableEq, Repr

/-- A live connection as seen by `infd_directory_foreach_connection`:
either an XMPP connection (with its SASL state) or a connection of some
other `InfXmlConnection` subtype. -/
inductive InfXmlConnection where
  | xmpp (id : Nat) (sasl_context : Option Nat) (sasl_mechanisms : Option String)
  | other (id : Nat)
deriving DecidableEq, Repr

/-- The plugin manager instance owned by the run.  `loaded` records whether
`infinoted_plugin_manager_load` succeeded for it (on failure the server
keeps the manager but runs with plugins disabled). -/
structure InfinotedPluginManager where
  id : Nat
  loaded : Bool
deriving DecidableEq, Repr

/-- The live server state (`InfinotedRun`) as used by the reload:
the current startup, DH parameters, the two optional accepting servers,
the server pool (ids of pooled servers), the root directory of the
directory's filesystem storage, the open connections, and the plugin
manager.  `next_id` is the model's fresh-id source for new objects. -/
structure InfinotedRun where
  startup : InfinotedStartup
  dh_params : Option Nat
  xmpp6 : Option InfdXmppServer
  xmpp4 : Option InfdXmppServer
  pool : List Nat
  storage_root_directory : String
  connections : List InfXmlConnection
  plugin_manager : InfinotedPluginManager
  next_id : Nat
deriving DecidableEq, Repr

/-- Outcomes of the external fallible calls made during one reload.
`none`/`true` means the call succeeds; `some e` carries the error the call
reports.  `startup_new` is the startup built by `infinoted_startup_new`. -/
structure ReloadEnv where
  startup_new : Option InfinotedStartup
  dh_ensure_ok : Bool
  bind6 : Option Nat
  bind4 : Option Nat
  open6 : Option Nat
  open4 : Option Nat
  set_filesystem : Option Nat
  plugin_load : Option String
deriving DecidableEq, Repr

/-- Protocol family of a socket. -/
inductive Fam where
  | v4
  | v6
deriving DecidableEq, Repr

/-- Observable side effects of a reload, in order of occurrence. -/
inductive ReloadEvent where
  | newTcpServer (f : Fam) (address : Option InfIpAddress) (port : Nat)
  | bindTcp (f : Fam) (ok : Bool)
  | openTcp (f : Fam) (ok : Bool)
  | removeFromPool (sid : Nat)
  | closeServer (sid : Nat)
  | installServer (sid : Nat)
  | setCredentials (sid : Nat) (c : Option Nat)
  | setSecurityPolicy (sid : Nat) (p : SecurityPolicy)
deriving DecidableEq, Repr

/-- Errors `infinoted_config_reload` can report through its `GError`
out-parameter before returning `FALSE`. -/
inductive ReloadError where
  | startupFailed
  | dhParamsFailed
  | listenAddressChanged
  | bindFailed (e : Nat)
deriving DecidableEq, Repr

/-- The literal message `g_set_error` attaches, where the C source carries
one. -/
def reload_error_message : ReloadError → Option String
  | ReloadError.listenAddressChanged =>
      some "Changing the listen address at runtime is not supported"
  | _ => none

/-- Ways the C function fails without returning: the `g_assert` on the
current TCP servers, and the undefined behaviour of unreffing the
never-initialised `plugin_manager` local. -/
inductive CrashKind where
  | assertionFailed
  | unrefUninitializedPluginManager
deriving DecidableEq, Repr

/-- Result of one reload: `success` (returns `TRUE`) with the new state,
the operator log entries written, and the event trace; `failure` (returns
`FALSE`) with the reported error and the state as left behind; or `crash`
for the undefined-behaviour paths. -/
inductive ReloadResult where
  | success (run : InfinotedRun) (log : List String) (events : List ReloadEvent)
  | failure (e : ReloadError) (run : InfinotedRun) (events : List ReloadEvent)
  | crash (k : CrashKind) (events : List ReloadEvent)
deriving DecidableEq, Repr

def ReloadResult.isSuccess : ReloadResult → Bool
  | ReloadResult.success _ _ _ => true
  | ReloadResult.failure _ _ _ => false
  | ReloadResult.crash _ _ => false

def ReloadResult.events : ReloadResult → List ReloadEvent
  | ReloadResult.success _ _ ev => ev
  | ReloadResult.failure _ _ ev => ev
  | ReloadResult.crash _ ev => ev

def ReloadResult.runAfter : ReloadResult → Option InfinotedRun
  | ReloadResult.success r _ _ => some r
  | ReloadResult.failure _ r _ => some r
  | ReloadResult.crash _ _ => none

def ReloadResult.errorOf : ReloadResult → Option ReloadError
  | ReloadResult.success _ _ _ => none
  | ReloadResult.failure e _ _ => some e
  | ReloadResult.crash _ _ => none

def ReloadResult.crashKind : ReloadResult → Option CrashKind
  | ReloadResult.success _ _ _ => none
  | ReloadResult.failure _ _ _ => none
  | ReloadResult.crash k _ => some k

def ReloadResult.xmpp6After : ReloadResult → Option (Option InfdXmppServer)
  | ReloadResult.success r _ _ => some r.xmpp6
  | ReloadResult.failure _ _ _ => none
  | ReloadResult.crash _ _ => none

def ReloadResult.xmpp4After : ReloadResult → Option (Option InfdXmppServer)
  | ReloadResult.success r _ _ => some r.xmpp4
  | ReloadResult.failure _ _ _ => none
  | ReloadResult.crash _ _ => none

/-- The listen-address comparison of infinoted-config-reload.c lines
109-116: the addresses disagree when exactly one is NULL, or both are
non-NULL and collate to nonzero. -/
def listen_address_changed (a b : Option InfIpAddress) : Bool :=
  match a, b with
  | some _, none => true
  | none, some _ => true
  | some x, some y => inf_ip_address_collate x y != 0
  | none, none => false

/-- Lines 129-142: fetch the `tcp-server` of each present accepting server
and read `local-port` from the v6 one when present, otherwise from the v4
one.  `none` is the case in which `g_assert(tcp4 != NULL || tcp6 != NULL)`
fires. -/
def current_local_port (run : InfinotedRun) : Option Nat :=
  match run.xmpp6 with
  | some s => some s.tcp_local_port
  | none =>
    match run.xmpp4 with
    | some s => some s.tcp_local_port
    | none => none

/-- `infinoted_config_reload_update_connection_sasl_context` (lines 35-47):
a non-XMPP connection is returned untouched; an XMPP connection has its
SASL authentication reset to the supplied context, with mechanism "PLAIN"
when the context is non-NULL and NULL otherwise. -/
def infinoted_config_reload_update_connection_sasl_context
    (userdata : Option Nat) : InfXmlConnection → InfXmlConnection
  | InfXmlConnection.xmpp cid _ _ =>
      InfXmlConnection.xmpp cid userdata
        (if userdata.isSome then some "PLAIN" else none)
  | InfXmlConnection.other cid => InfXmlConnection.other cid

/-- Lines 287-376: the server-replacement step.  If at least one new TCP
server exists, both old accepting servers are removed from the pool,
closed and dropped, and a new accepting server is installed for each
surviving TCP server.  Otherwise the new credentials and security policy
are set in place on each existing server, credentials first. -/
def reload_replace_servers (run : InfinotedRun) (startup : InfinotedStartup)
    (tcp6 tcp4 : Option InfdTcpServer) (ev : List ReloadEvent) :
    InfinotedRun × List ReloadEvent :=
  if tcp6.isSome || tcp4.isSome then
    let p1 :=
      match run.xmpp6 with
      | some s =>
        ({ run with xmpp6 := none, pool := run.pool.erase s.id },
         ev ++ [ReloadEvent.removeFromPool s.id, ReloadEvent.closeServer s.id])
      | none => (run, ev)
    let p2 :=
      match p1.1.xmpp4 with
      | some s =>
        ({ p1.1 with xmpp4 := none, pool := p1.1.pool.erase s.id },
         p1.2 ++ [ReloadEvent.removeFromPool s.id, ReloadEvent.closeServer s.id])
      | none => p1
    let p3 :=
      match tcp6 with
      | some t =>
        let s : InfdXmppServer :=
          { id := p2.1.next_id, tcp_local_port := t.local_port,
            security_policy := startup.options.security_policy,
            credentials := startup.credentials,
            sasl_context := none, sasl_mechanisms := none }
        ({ p2.1 with
           xmpp6 := some s,
           pool := p2.1.pool ++ [s.id],
           next_id := p2.1.next_id + 1 },
         p2.2 ++ [ReloadEvent.installServer s.id])
      | none => p2
    let p4 :=
      match tcp4 with
      | some t =>
        let s : InfdXmppServer :=
          { id := p3.1.next_id, tcp_local_port := t.local_port,
            security_policy := startup.options.security_policy,
            credentials := startup.credentials,
            sasl_context := none, sasl_mechanisms := none }
        ({ p3.1 with
           xmpp4 := some s,
           pool := p3.1.pool ++ [s.id],
           next_id := p3.1.next_id + 1 },
         p3.2 ++ [ReloadEvent.installServer s.id])
      | none => p3
    p4
  else
    let q1 :=
      match run.xmpp6 with
      | some s =>
        ({ run with
           xmpp6 := some { s with
                           credentials := startup.credentials,
                           security_policy := startup.options.security_policy } },
         ev ++ [ReloadEvent.setCredentials s.id startup.credentials,
                ReloadEvent.setSecurityPolicy s.id startup.options.security_policy])
      | none => (run, ev)
    let q2 :=
      match q1.1.xmpp4 with
      | some s =>
        ({ q1.1 with
           xmpp4 := some { s with
                           credentials := startup.credentials,
                           security_policy := startup.options.security_policy } },
         q1.2 ++ [ReloadEvent.setCredentials s.id startup.credentials,
                  ReloadEvent.setSecurityPolicy s.id startup.options.security_policy])
      | none => q1
    q2

/-- Lines 435-450: the two operator-log entries written when
`infinoted_plugin_manager_load` fails. -/
def plugin_load_log : Option String → List String
  | some msg =>
    ["Failed to re-load plugins: " ++ msg,
     "Plugins are disabled. Please fix the problem and reload configuration again."]
  | none => []

/-- The state after the commit phase (lines 287-491): replace or update
the accepting servers, install a storage swap if one was prepared, replace
the plugin manager (disabled when loading failed), push the new SASL
context onto the v4 then the v6 server, reset SASL on every connection,
and install the new startup. -/
def reload_commit_run (env : ReloadEnv) (run : InfinotedRun)
    (startup : InfinotedStartup) (tcp6 tcp4 : Option InfdTcpServer)
    (new_root : Option String) (ev : List ReloadEvent) : InfinotedRun :=
  let run1 : InfinotedRun := (reload_replace_servers run startup tcp6 tcp4 ev).1
  let run2 : InfinotedRun :=
    match new_root with
    | some root => { run1 with storage_root_directory := root }
    | none => run1
  let pm : InfinotedPluginManager :=
    { id := run2.next_id, loaded := env.plugin_load.isNone }
  let run3 : InfinotedRun :=
    { run2 with plugin_manager := pm, next_id := run2.next_id + 1 }
  let mech : Option String :=
    if startup.sasl_context.isSome then some "PLAIN" else none
  let run4 : InfinotedRun :=
              { run3 with
                xmpp4 := run3.xmpp4.map (fun s =>
                  ({ s with
                     sasl_context := startup.sasl_context,
                     sasl_mechanisms := mech } : InfdXmppServer)) }
  let run5 : InfinotedRun :=
              { run4 with
                xmpp6 := run4.xmpp6.map (fun s =>
                  ({ s with
                     sasl_context := startup.sasl_context,
                     sasl_mechanisms := mech } : InfdXmppServer)) }
  let run6 : InfinotedRun :=
              { run5 with
                connections := run5.connections.map
                  (infinoted_config_reload_update_connection_sasl_context
                    startup.sasl_context) }
  { run6 with startup := startup }

/-- Everything from line 285 on: past this point nothing can fail any
more, and the function returns `TRUE`. -/
def infinoted_config_reload_commit (env : ReloadEnv) (run : InfinotedRun)
    (startup : InfinotedStartup) (tcp6 tcp4 : Option InfdTcpServer)
    (new_root : Option String) (ev : List ReloadEvent) : ReloadResult :=
  ReloadResult.success
    (reload_commit_run env run startup tcp6 tcp4 new_root ev)
    (plugin_load_log env.plugin_load)
    ((reload_replace_servers run startup tcp6 tcp4 ev).2)

/-- Lines 244-283: the speculative open step.  Each bound socket is opened;
a failed open drops that socket (recording the first open error in
`local_error`).  If no socket survives, the C code propagates the error and
then unrefs the uninitialised `plugin_manager` local: undefined behaviour,
modelled as `crash`. -/
def infinoted_config_reload_open (env : ReloadEnv) (run : InfinotedRun)
    (startup : InfinotedStartup) (tcp6 tcp4 : Option InfdTcpServer)
    (new_root : Option String) (ev : List ReloadEvent) : ReloadResult :=
  if tcp6.isSome || tcp4.isSome then
    let tcp6o : Option InfdTcpServer :=
      match tcp6 with
      | none => none
      | some t => if env.open6.isNone then some t else none
    let ev6 : List ReloadEvent :=
      match tcp6 with
      | none => ev
      | some _ => ev ++ [ReloadEvent.openTcp Fam.v6 env.open6.isNone]
    let tcp4o : Option InfdTcpServer :=
      match tcp4 with
      | none => none
      | some t => if env.open4.isNone then some t else none
    let ev4 : List ReloadEvent :=
      match tcp4 with
      | none => ev6
      | some _ => ev6 ++ [ReloadEvent.openTcp Fam.v4 env.open4.isNone]
    if tcp4o.isNone && tcp6o.isNone then
      ReloadResult.crash CrashKind.unrefUninitializedPluginManager ev4
    else
      infinoted_config_reload_commit env run startup tcp6o tcp4o new_root ev4
  else
    infinoted_config_reload_commit env run startup none none new_root ev

/-- Lines 207-242: the storage swap is prepared only when the directory's
current root differs from the new configuration's root.  When binding the
new account storage to the new storage fails, the C code unrefs the
uninitialised `plugin_manager` local: undefined behaviour, modelled as
`crash`. -/
def infinoted_config_reload_storage (env : ReloadEnv) (run : InfinotedRun)
    (startup : InfinotedStartup) (tcp6 tcp4 : Option InfdTcpServer)
    (ev : List ReloadEvent) : ReloadResult :=
  if run.storage_root_directory ≠ startup.options.root_directory then
    match env.set_filesystem with
    | some _ => ReloadResult.crash CrashKind.unrefUninitializedPluginManager ev
    | none =>
      infinoted_config_reload_open env run startup tcp6 tcp4
        (some startup.options.root_directory) ev
  else
    infinoted_config_reload_open env run startup tcp6 tcp4 none ev

/-- Lines 144-202: when the configured port differs from the bound one,
create and bind up to two new TCP servers.  The v6 bind error is discarded
(`infd_tcp_server_bind(tcp6, NULL)`); a v4 bind failure is tolerated when
the v6 socket survived, and otherwise the v4 bind error is the one
propagated to the caller. -/
def infinoted_config_reload_bind (env : ReloadEnv) (run : InfinotedRun)
    (startup : InfinotedStartup) (port : Nat) : ReloadResult :=
  if startup.options.port ≠ port then
    let addr6 : Option InfIpAddress :=
      match startup.options.listen_address with
      | none => some InfIpAddress.any6
      | some a => some a
    let addr4 : Option InfIpAddress := startup.options.listen_address
    let newPort := startup.options.port
    let tcp6 : Option InfdTcpServer :=
      if env.bind6.isNone then
        some { local_address := addr6, local_port := newPort }
      else none
    let ev1 : List ReloadEvent :=
      [ReloadEvent.newTcpServer Fam.v6 addr6 newPort,
       ReloadEvent.bindTcp Fam.v6 env.bind6.isNone,
       ReloadEvent.newTcpServer Fam.v4 addr4 newPort,
       ReloadEvent.bindTcp Fam.v4 env.bind4.isNone]
    match env.bind4 with
    | none =>
      infinoted_config_reload_storage env run startup tcp6
        (some { local_address := addr4, local_port := newPort }) ev1
    | some e4 =>
      if tcp6.isSome then
        infinoted_config_reload_storage env run startup tcp6 none ev1
      else
        ReloadResult.failure (ReloadError.bindFailed e4) run ev1
  else
    infinoted_config_reload_storage env run startup none none []

/-- `infinoted_config_reload` (lines 60-494): reload the configuration at
runtime.  Translated stage by stage from the C source; the stages are the
helper definitions above. -/
def infinoted_config_reload (env : ReloadEnv) (run : InfinotedRun) : ReloadResult :=
  match env.startup_new with
  | none => ReloadResult.failure ReloadError.startupFailed run []
  | some startup =>
    if startup.credentials.isSome && !env.dh_ensure_ok then
      ReloadResult.failure ReloadError.dhParamsFailed run []
    else if listen_address_changed startup.options.listen_address
        run.startup.options.listen_address then
      ReloadResult.failure ReloadError.listenAddressChanged run []
    else
      match current_local_port run with
      | none => ReloadResult.crash CrashKind.assertionFailed []
      | some port => infinoted_config_reload_bind env run startup port

/-- `InfinotedPluginManagerError` (infinoted-plugin-manager.h): the error
codes of the `INFINOTED_PLUGIN_MANAGER_ERROR` domain. -/
inductive InfinotedPluginManagerError where
  | OPEN_FAILED
  | NO_ENTRY_POINT
deriving DecidableEq, Repr, Fintype

/-- Replace only the plugin-load outcome of an oracle. -/
def env_with_plugin_load (env : ReloadEnv) (p : Option String) : ReloadEnv :=
  { env with plugin_load := p }

/-! Concrete fixtures: a live server bound to port 6523 on both families,
with one XMPP and one non-XMPP connection, and oracle variants. -/

def startup0 : InfinotedStartup :=
  { options := { listen_address := none, port := 6523,
                 security_policy := SecurityPolicy.allowTls,
                 root_directory := "/var/lib/infinote",
                 plugins := ["autosave"] },
    credentials := some 10, sasl_context := some 20 }

def old6 : InfdXmppServer :=
  { id := 1, tcp_local_port := 6523,
    security_policy := SecurityPolicy.allowTls,
    credentials := some 10, sasl_context := some 20,
    sasl_mechanisms := some "PLAIN" }

def old4 : InfdXmppServer :=
  { id := 2, tcp_local_port := 6523,
    security_policy := SecurityPolicy.allowTls,
    credentials := some 10, sasl_context := some 20,
    sasl_mechanisms := some "PLAIN" }

def run0 : InfinotedRun :=
  { startup := startup0, dh_params := some 5,
    xmpp6 := some old6, xmpp4 := some old4, pool := [1, 2],
    storage_root_directory := "/var/lib/infinote",
    connections := [InfXmlConnection.xmpp 100 (some 20) (some "PLAIN"),
                    InfXmlConnection.other 101],
    plugin_manager := { id := 3, loaded := true }, next_id := 50 }

def startup_port_changed : InfinotedStartup :=
  { startup0 with options := { startup0.options with port := 6524 } }

def startup_root_changed : InfinotedStartup :=
  { startup0 with options := { startup0.options with
                               root_directory := "/srv/new-root" } }

def startup_addr_changed : InfinotedStartup :=
  { startup0 with options := { startup0.options with
                               listen_address := some (InfIpAddress.addr 42) } }

def env_ok : ReloadEnv :=
  { startup_new := some startup_port_changed, dh_ensure_ok := true,
    bind6 := none, bind4 := none, open6 := none, open4 := none,
    set_filesystem := none, plugin_load := none }

def env_plain : ReloadEnv := { env_ok with startup_new := some startup0 }

def env_C1 : ReloadEnv := { env_ok with open6 := some 7 }

def env_C2 : ReloadEnv := { env_ok with startup_new := some startup_addr_changed }

def env_C3 : ReloadEnv := { env_ok with open6 := some 7, open4 := some 8 }

def env_C4 : ReloadEnv :=
  { env_ok with startup_new := some startup_root_changed, set_filesystem := some 9 }

def env_C4b : ReloadEnv :=
  { env_ok with startup_new := some startup0, set_filesystem := some 9 }

def env_C5 : ReloadEnv := { env_ok with bind6 := some 100, bind4 := some 200 }

def run_noservers : InfinotedRun := { run0 with xmpp6 := none, xmpp4 := none }

/-- Claim C2: for every pair of old and new configuration snapshots whose
listen addresses disagree (including one being null and the other a
specific address, in either direction), the reload fails with the
descriptive listen-address error and hands back the live server state
exactly as it was: the same `InfinotedRun` value, so listener identities
and the plugin-manager instance are unchanged. -/
theorem C2_listen_address_change_rejected (env : ReloadEnv) (run : InfinotedRun)
    (st : InfinotedStartup)
    (hs : env.startup_new = some st)
    (hdh : (st.credentials.isSome && !env.dh_ensure_ok) = false)
    (haddr : listen_address_changed st.options.listen_address
      run.startup.options.listen_address = true) :
    infinoted_config_reload env run
      = ReloadResult.failure ReloadError.listenAddressChanged run []
    ∧ reload_error_message ReloadError.listenAddressChanged
      = some "Changing the listen address at runtime is not supported" := by
  constructor
  · simp [infinoted_config_reload, hs, hdh, haddr]
  · rfl

/-- Witness for C2: a concrete reload that sets a listen address where the
running server has none is rejected with the server state untouched. -/
theorem C2_listen_address_change_rejected_witness :
    env_C2.startup_new = some startup_addr_changed
    ∧ (startup_addr_changed.credentials.isSome && !env_C2.dh_ensure_ok) = false
    ∧ listen_address_changed startup_addr_changed.options.listen_address
        run0.startup.options.listen_address = true
    ∧ (infinoted_config_reload env_C2 run0
        = ReloadResult.failure ReloadError.listenAddressChanged run0 []
      ∧ reload_error_message ReloadError.listenAddressChanged
        = some "Changing the listen address at runtime is not supported") :=
  ⟨rfl, rfl, rfl,
   C2_listen_address_change_rejected env_C2 run0 startup_addr_changed rfl rfl rfl⟩

/-- Claim C3 (code bug): with the port changed, both binds succeeding and
both speculative opens failing, the C code does not return an error with
the old listeners intact: after propagating the open error it unrefs the
never-initialised `plugin_manager` local (undefined behaviour), modelled
as a crash.  No close event was emitted before that point: the old pair
was indeed still untouched. -/
theorem C3_both_open_fail_crashes :
    (infinoted_config_reload env_C3 run0).crashKind
      = some CrashKind.unrefUninitializedPluginManager
    ∧ ∀ sid, ReloadEvent.closeServer sid ∉ (infinoted_config_reload env_C3 run0).events := by
  constructor
  · rfl
  · intro sid
    have hev : (infinoted_config_reload env_C3 run0).events
        = [ReloadEvent.newTcpServer Fam.v6 (some InfIpAddress.any6) 6524,
           ReloadEvent.bindTcp Fam.v6 true,
           ReloadEvent.newTcpServer Fam.v4 none 6524,
           ReloadEvent.bindTcp Fam.v4 true,
           ReloadEvent.openTcp Fam.v6 false,
           ReloadEvent.openTcp Fam.v4 false] := rfl
    rw [hev]
    simp

/-- Claim C4 (code bug): the storage swap is attempted only when the root
directory changed (with an unchanged root the same failing storage oracle
is never consulted and the reload succeeds), but when the swap is
attempted and binding the account storage fails, the C code does not abort
cleanly: it unrefs the never-initialised `plugin_manager` local (undefined
behaviour), modelled as a crash. -/
theorem C4_storage_swap_failure_crashes :
    (infinoted_config_reload env_C4 run0).crashKind
      = some CrashKind.unrefUninitializedPluginManager
    ∧ (infinoted_config_reload env_C4b run0).isSuccess = true :=
  ⟨rfl, rfl⟩

/-- Claim C1 counterexample: port changed, both binds succeed, the v6 open
fails and the v4 open succeeds.  The reload returns success, but the old
v6 listener does not keep running: it is closed (a `closeServer` event for
its id) and the resulting state has no v6 listener at all. -/
theorem C1_counterexample :
    run0.xmpp6 = some old6
    ∧ (infinoted_config_reload env_C1 run0).isSuccess = true
    ∧ (infinoted_config_reload env_C1 run0).xmpp6After = some none
    ∧ ReloadEvent.closeServer old6.id ∈ (infinoted_config_reload env_C1 run0).events := by
  refine ⟨rfl, rfl, rfl, ?_⟩
  have hev : (infinoted_config_reload env_C1 run0).events
      = [ReloadEvent.newTcpServer Fam.v6 (some InfIpAddress.any6) 6524,
         ReloadEvent.bindTcp Fam.v6 true,
         ReloadEvent.newTcpServer Fam.v4 none 6524,
         ReloadEvent.bindTcp Fam.v4 true,
         ReloadEvent.openTcp Fam.v6 false,
         ReloadEvent.openTcp Fam.v4 true,
         ReloadEvent.removeFromPool 1, ReloadEvent.closeServer 1,
         ReloadEvent.removeFromPool 2, ReloadEvent.closeServer 2,
         ReloadEvent.installServer 50] := rfl
  rw [hev]
  simp [old6]

/-- Claim C5 counterexample: with the port changed and both binds failing
(v6 bind error 100, v4 bind error 200), the reload reports the v4 error
200, not the first bind error: the v6 leg is bound first and its error is
discarded by passing NULL to `infd_tcp_server_bind`. -/
theorem C5_counterexample :
    env_C5.bind6 = some 100
    ∧ env_C5.bind4 = some 200
    ∧ (infinoted_config_reload env_C5 run0).errorOf
        = some (ReloadError.bindFailed 200)
    ∧ ReloadError.bindFailed 200 ≠ ReloadError.bindFailed 100 :=
  ⟨rfl, rfl, rfl, by decide⟩

/-- Claim C8 counterexample: the plugin-manager error domain
`InfinotedPluginManagerError` does not distinguish three error kinds. -/
theorem C8_counterexample : Fintype.card InfinotedPluginManagerError ≠ 3 := by
  decide

/-- Claim C8 amended: the plugin-manager error domain distinguishes
exactly two error kinds, module open failed and missing entry-point
symbol; there is no dedicated plugin-initialize-failed code. -/
theorem C8_two_error_kinds :
    Fintype.card InfinotedPluginManagerError = 2
    ∧ InfinotedPluginManagerError.OPEN_FAILED
      ≠ InfinotedPluginManagerError.NO_ENTRY_POINT := by
  constructor <;> decide

/-- Claim C9: the reload has the unstated precondition that the live
server owns at least one accepting server; with both absent the
`g_assert` fires, and under the precondition the current-port read is
taken from the v6 listener when present and otherwise from the v4
listener. -/
theorem C9_accepting_server_precondition (env : ReloadEnv) (run : InfinotedRun)
    (st : InfinotedStartup)
    (hs : env.startup_new = some st)
    (hdh : (st.credentials.isSome && !env.dh_ensure_ok) = false)
    (haddr : listen_address_changed st.options.listen_address
      run.startup.options.listen_address = false) :
    (run.xmpp6 = none → run.xmpp4 = none →
      infinoted_config_reload env run = ReloadResult.crash CrashKind.assertionFailed [])
    ∧ (∀ s6, run.xmpp6 = some s6 → current_local_port run = some s6.tcp_local_port)
    ∧ (run.xmpp6 = none → ∀ s4, run.xmpp4 = some s4 →
        current_local_port run = some s4.tcp_local_port) := by
  refine ⟨?_, ?_, ?_⟩
  · intro h6 h4
    simp [infinoted_config_reload, hs, hdh, haddr, current_local_port, h6, h4]
  · intro s6 h6
    simp [current_local_port, h6]
  · intro h6 s4 h4
    simp [current_local_port, h6, h4]

/-- Witness for C9: a concrete run with no accepting server at all makes
the reload hit the assertion. -/
theorem C9_accepting_server_precondition_witness :
    env_plain.startup_new = some startup0
    ∧ (startup0.credentials.isSome && !env_plain.dh_ensure_ok) = false
    ∧ listen_address_changed startup0.options.listen_address
        run_noservers.startup.options.listen_address = false
    ∧ infinoted_config_reload env_plain run_noservers
        = ReloadResult.crash CrashKind.assertionFailed [] :=
  ⟨rfl, rfl, rfl,
   (C9_accepting_server_precondition env_plain run_noservers startup0
     rfl rfl rfl).1 rfl rfl⟩

def ReloadResult.pluginLoadedAfter : ReloadResult → Option Bool
  | ReloadResult.success r _ _ => some r.plugin_manager.loaded
  | ReloadResult.failure _ _ _ => none
  | ReloadResult.crash _ _ => none

def ReloadResult.connectionsAfter : ReloadResult → Option (List InfXmlConnection)
  | ReloadResult.success r _ _ => some r.connections
  | ReloadResult.failure _ _ _ => none
  | ReloadResult.crash _ _ => none

/-- The commit phase cannot fail: from line 285 on the C function always
returns `TRUE`. -/
theorem reload_commit_isSuccess (env : ReloadEnv) (run : InfinotedRun)
    (startup : InfinotedStartup) (t6 t4 : Option InfdTcpServer)
    (nr : Option String) (ev : List ReloadEvent) :
    (infinoted_config_reload_commit env run startup t6 t4 nr ev).isSuccess = true := rfl

/-- The server-replacement step never touches the connection list. -/
theorem reload_replace_servers_connections (run : InfinotedRun)
    (startup : InfinotedStartup) (t6 t4 : Option InfdTcpServer)
    (ev : List ReloadEvent) :
    (reload_replace_servers run startup t6 t4 ev).1.connections = run.connections := by
  unfold reload_replace_servers
  rcases t6 with _ | t6v <;> rcases t4 with _ | t4v <;>
    rcases h6 : run.xmpp6 with _ | s6 <;> rcases h4 : run.xmpp4 with _ | s4 <;>
      simp [h6, h4]

/-- After the commit phase the connection list is exactly the old one with
the SASL-reset callback applied to every element. -/
theorem reload_commit_run_connections (env : ReloadEnv) (run : InfinotedRun)
    (startup : InfinotedStartup) (t6 t4 : Option InfdTcpServer)
    (nr : Option String) (ev : List ReloadEvent) :
    (reload_commit_run env run startup t6 t4 nr ev).connections
      = run.connections.map
          (infinoted_config_reload_update_connection_sasl_context
            startup.sasl_context) := by
  rcases nr with _ | root <;>
    simp [reload_commit_run, reload_replace_servers_connections]

/-- The plugin manager installed by the commit phase is enabled exactly
when the plugin-load call succeeded. -/
theorem reload_commit_run_plugin_loaded (env : ReloadEnv) (run : InfinotedRun)
    (startup : InfinotedStartup) (t6 t4 : Option InfdTcpServer)
    (nr : Option String) (ev : List ReloadEvent) :
    (reload_commit_run env run startup t6 t4 nr ev).plugin_manager.loaded
      = env.plugin_load.isNone := rfl

/-- A successful open phase is a successful commit phase. -/
theorem reload_open_success_inv (env : ReloadEnv) (run : InfinotedRun)
    (startup : InfinotedStartup) (t6 t4 : Option InfdTcpServer)
    (nr : Option String) (ev : List ReloadEvent)
    (r : InfinotedRun) (l : List String) (e : List ReloadEvent)
    (h : infinoted_config_reload_open env run startup t6 t4 nr ev
      = ReloadResult.success r l e) :
    ∃ t6o t4o ev2,
      infinoted_config_reload_commit env run startup t6o t4o nr ev2
        = ReloadResult.success r l e := by
  rcases t6 with _ | t6v <;> rcases t4 with _ | t4v <;>
    rcases ho6 : env.open6 with _ | e6 <;> rcases ho4 : env.open4 with _ | e4 <;>
      simp only [infinoted_config_reload_open, ho6, ho4, Option.isSome,
        Option.isNone, Bool.or_self, Bool.or_true, Bool.true_or, Bool.and_self,
        Bool.and_true, Bool.true_and, Bool.and_false, Bool.false_and,
        if_true, if_false, ite_true, ite_false] at h <;>
      first
        | exact ⟨_, _, _, h⟩
        | exact absurd h (by simp)

/-- A successful storage phase is a successful open phase. -/
theorem reload_storage_success_inv (env : ReloadEnv) (run : InfinotedRun)
    (startup : InfinotedStartup) (t6 t4 : Option InfdTcpServer)
    (ev : List ReloadEvent)
    (r : InfinotedRun) (l : List String) (e : List ReloadEvent)
    (h : infinoted_config_reload_storage env run startup t6 t4 ev
      = ReloadResult.success r l e) :
    ∃ nr, infinoted_config_reload_open env run startup t6 t4 nr ev
      = ReloadResult.success r l e := by
  unfold infinoted_config_reload_storage at h
  by_cases hr : run.storage_root_directory ≠ startup.options.root_directory
  · rw [if_pos hr] at h
    rcases hs : env.set_filesystem with _ | err <;> rw [hs] at h
    · exact ⟨_, h⟩
    · exact absurd h (by simp)
  · rw [if_neg hr] at h
    exact ⟨none, h⟩

/-- A successful bind phase is a successful storage phase. -/
theorem reload_bind_success_inv (env : ReloadEnv) (run : InfinotedRun)
    (startup : InfinotedStartup) (port : Nat)
    (r : InfinotedRun) (l : List String) (e : List ReloadEvent)
    (h : infinoted_config_reload_bind env run startup port
      = ReloadResult.success r l e) :
    ∃ t6 t4 ev, infinoted_config_reload_storage env run startup t6 t4 ev
      = ReloadResult.success r l e := by
  unfold infinoted_config_reload_bind at h
  by_cases hp : startup.options.port ≠ port
  · rw [if_pos hp] at h
    rcases hb6 : env.bind6 with _ | e6 <;>
      rcases hb4 : env.bind4 with _ | e4 <;>
        simp only [hb6, hb4, Option.isNone, if_true, if_false, ite_true,
          ite_false, Option.isSome] at h
    · exact ⟨_, _, _, h⟩
    · exact ⟨_, _, _, h⟩
    · exact ⟨_, _, _, h⟩
    · exact absurd h (by simp)
  · rw [if_neg hp] at h
    exact ⟨_, _, _, h⟩

/-- Every successful reload is a successful commit phase for the startup
produced by `infinoted_startup_new`. -/
theorem reload_success_inv (env : ReloadEnv) (run : InfinotedRun)
    (r : InfinotedRun) (l : List String) (e : List ReloadEvent)
    (h : infinoted_config_reload env run = ReloadResult.success r l e) :
    ∃ st t6 t4 nr ev, env.startup_new = some st
      ∧ infinoted_config_reload_commit env run st t6 t4 nr ev
        = ReloadResult.success r l e := by
  rcases hs : env.startup_new with _ | st
  · simp only [infinoted_config_reload, hs] at h
    exact absurd h (by simp)
  · simp only [infinoted_config_reload, hs] at h
    by_cases hdh : (st.credentials.isSome && !env.dh_ensure_ok) = true
    · rw [if_pos hdh] at h
      exact absurd h (by simp)
    · rw [if_neg hdh] at h
      by_cases haddr : listen_address_changed st.options.listen_address
          run.startup.options.listen_address = true
      · rw [if_pos haddr] at h
        exact absurd h (by simp)
      · rw [if_neg haddr] at h
        rcases hp : current_local_port run with _ | port <;>
          simp only [hp] at h
        · exact absurd h (by simp)
        · obtain ⟨t6, t4, ev, h2⟩ :=
            reload_bind_success_inv env run st port r l e h
          obtain ⟨nr, h3⟩ :=
            reload_storage_success_inv env run st t6 t4 ev r l e h2
          obtain ⟨t6o, t4o, ev2, h4⟩ :=
            reload_open_success_inv env run st t6 t4 nr ev r l e h3
          exact ⟨st, t6o, t4o, nr, ev2, rfl, h4⟩

theorem reload_isSuccess_failure (e : ReloadError) (run : InfinotedRun)
    (ev : List ReloadEvent) :
    (ReloadResult.failure e run ev).isSuccess = false := rfl

theorem reload_isSuccess_crash (k : CrashKind) (ev : List ReloadEvent) :
    (ReloadResult.crash k ev).isSuccess = false := rfl

/-- Two oracles that agree on the open outcomes make the open phase
succeed or fail together: its outcome does not depend on the plugin-load
outcome. -/
theorem reload_open_isSuccess_ext (env1 env2 : ReloadEnv) (run : InfinotedRun)
    (startup : InfinotedStartup) (t6 t4 : Option InfdTcpServer)
    (nr : Option String) (ev : List ReloadEvent)
    (h5 : env1.open6 = env2.open6) (h6 : env1.open4 = env2.open4) :
    (infinoted_config_reload_open env1 run startup t6 t4 nr ev).isSuccess
      = (infinoted_config_reload_open env2 run startup t6 t4 nr ev).isSuccess := by
  rcases t6 with _ | t6v <;> rcases t4 with _ | t4v <;>
    rcases ho6 : env2.open6 with _ | e6 <;> rcases ho4 : env2.open4 with _ | e4 <;>
      simp [infinoted_config_reload_open, h5, h6, ho6, ho4,
        reload_commit_isSuccess, reload_isSuccess_crash, reload_isSuccess_failure]

/-- Two oracles that agree on the storage and open outcomes make the
storage phase succeed or fail together. -/
theorem reload_storage_isSuccess_ext (env1 env2 : ReloadEnv) (run : InfinotedRun)
    (startup : InfinotedStartup) (t6 t4 : Option InfdTcpServer)
    (ev : List ReloadEvent)
    (h5 : env1.open6 = env2.open6) (h6 : env1.open4 = env2.open4)
    (h7 : env1.set_filesystem = env2.set_filesystem) :
    (infinoted_config_reload_storage env1 run startup t6 t4 ev).isSuccess
      = (infinoted_config_reload_storage env2 run startup t6 t4 ev).isSuccess := by
  unfold infinoted_config_reload_storage
  by_cases hr : run.storage_root_directory ≠ startup.options.root_directory
  · rw [if_pos hr, if_pos hr, h7]
    rcases hs : env2.set_filesystem with _ | err <;> simp only [hs]
    exact reload_open_isSuccess_ext env1 env2 run startup t6 t4 _ ev h5 h6
  · rw [if_neg hr, if_neg hr]
    exact reload_open_isSuccess_ext env1 env2 run startup t6 t4 _ ev h5 h6

/-- Two oracles that agree on the bind, storage and open outcomes make the
bind phase succeed or fail together. -/
theorem reload_bind_isSuccess_ext (env1 env2 : ReloadEnv) (run : InfinotedRun)
    (startup : InfinotedStartup) (port : Nat)
    (h3 : env1.bind6 = env2.bind6) (h4 : env1.bind4 = env2.bind4)
    (h5 : env1.open6 = env2.open6) (h6 : env1.open4 = env2.open4)
    (h7 : env1.set_filesystem = env2.set_filesystem) :
    (infinoted_config_reload_bind env1 run startup port).isSuccess
      = (infinoted_config_reload_bind env2 run startup port).isSuccess := by
  unfold infinoted_config_reload_bind
  by_cases hp : startup.options.port ≠ port
  · rw [if_pos hp, if_pos hp, h3, h4]
    rcases hb6 : env2.bind6 with _ | e6 <;>
      rcases hb4 : env2.bind4 with _ | e4 <;>
        simp only [hb6, hb4, Option.isNone_none, Option.isNone_some,
          Option.isSome_some, Option.isSome_none, if_true, if_false,
          Bool.false_eq_true, ite_true, ite_false] <;>
        exact reload_storage_isSuccess_ext env1 env2 run startup _ _ _ h5 h6 h7
  · rw [if_neg hp, if_neg hp]
    exact reload_storage_isSuccess_ext env1 env2 run startup _ _ _ h5 h6 h7

/-- Two oracles that differ at most in the plugin-load outcome make the
whole reload succeed or fail together: whether
`infinoted_config_reload` returns `TRUE` never depends on plugin
loading. -/
theorem reload_isSuccess_ext (env1 env2 : ReloadEnv) (run : InfinotedRun)
    (h1 : env1.startup_new = env2.startup_new)
    (h2 : env1.dh_ensure_ok = env2.dh_ensure_ok)
    (h3 : env1.bind6 = env2.bind6) (h4 : env1.bind4 = env2.bind4)
    (h5 : env1.open6 = env2.open6) (h6 : env1.open4 = env2.open4)
    (h7 : env1.set_filesystem = env2.set_filesystem) :
    (infinoted_config_reload env1 run).isSuccess
      = (infinoted_config_reload env2 run).isSuccess := by
  unfold infinoted_config_reload
  rw [h1]
  rcases hs : env2.startup_new with _ | st <;> simp only [hs]
  rw [h2]
  by_cases hdh : (st.credentials.isSome && !env2.dh_ensure_ok) = true
  · rw [if_pos hdh, if_pos hdh]
  · rw [if_neg hdh, if_neg hdh]
    by_cases haddr : listen_address_changed st.options.listen_address
        run.startup.options.listen_address = true
    · rw [if_pos haddr, if_pos haddr]
    · rw [if_neg haddr, if_neg haddr]
      rcases hp : current_local_port run with _ | port <;> simp only [hp]
      exact reload_bind_isSuccess_ext env1 env2 run st port h3 h4 h5 h6 h7

/-- Claim C6: a plugin load failure during reload never fails the reload.
Whether the reload succeeds is independent of the plugin-load outcome
(the same reload with a succeeding plugin load returns the same success
bit), and on any successful reload whose plugin load failed the returned
state has plugins disabled and the failure appears in the operator
log. -/
theorem C6_plugin_load_failure_nonfatal (env : ReloadEnv) (run : InfinotedRun)
    (msg : String) (h : env.plugin_load = some msg) :
    (infinoted_config_reload env run).isSuccess
      = (infinoted_config_reload (env_with_plugin_load env none) run).isSuccess
    ∧ (∀ run' log ev,
        infinoted_config_reload env run = ReloadResult.success run' log ev →
        run'.plugin_manager.loaded = false
        ∧ ("Failed to re-load plugins: " ++ msg) ∈ log) := by
  constructor
  · exact reload_isSuccess_ext env (env_with_plugin_load env none) run
      rfl rfl rfl rfl rfl rfl rfl
  · intro run' log ev heq
    obtain ⟨st, t6, t4, nr, ev2, hsn, hcommit⟩ :=
      reload_success_inv env run run' log ev heq
    unfold infinoted_config_reload_commit at hcommit
    injection hcommit with h1 h2 h3
    constructor
    · rw [← h1, reload_commit_run_plugin_loaded, h]
      rfl
    · rw [← h2, h]
      simp [plugin_load_log]

def env_C6 : ReloadEnv := { env_ok with plugin_load := some "boom" }

/-- Witness for C6: a concrete reload with a failing plugin load still
succeeds, with plugins disabled afterwards. -/
theorem C6_plugin_load_failure_nonfatal_witness :
    env_C6.plugin_load = some "boom"
    ∧ (infinoted_config_reload env_C6 run0).isSuccess = true
    ∧ (infinoted_config_reload env_C6 run0).pluginLoadedAfter = some false := by
  refine ⟨rfl, rfl, ?_⟩
  have hc := (C6_plugin_load_failure_nonfatal env_C6 run0 "boom" rfl).2
  rcases hres : infinoted_config_reload env_C6 run0 with ⟨r, l, e⟩ | ⟨er, r2, ev2⟩ | ⟨k, ev2⟩
  · have hpl := hc r l e hres
    simp [ReloadResult.pluginLoadedAfter, hpl.1]
  · have hok : (infinoted_config_reload env_C6 run0).isSuccess = true := rfl
    rw [hres] at hok
    exact absurd hok (by simp [ReloadResult.isSuccess])
  · have hok : (infinoted_config_reload env_C6 run0).isSuccess = true := rfl
    rw [hres] at hok
    exact absurd hok (by simp [ReloadResult.isSuccess])

/-- Claim C10: the SASL propagation step leaves every non-XMPP connection
completely unchanged; an XMPP connection has its SASL authentication reset
to the new context with mechanism "PLAIN" when a context exists and to no
SASL when it is null; and on every successful reload the new connection
list is exactly the old one with this reset applied elementwise. -/
theorem C10_sasl_propagation_frame :
    (∀ ctx cid,
      infinoted_config_reload_update_connection_sasl_context ctx
          (InfXmlConnection.other cid)
        = InfXmlConnection.other cid)
    ∧ (∀ ctx cid sc sm,
        infinoted_config_reload_update_connection_sasl_context ctx
            (InfXmlConnection.xmpp cid sc sm)
          = InfXmlConnection.xmpp cid ctx
              (if ctx.isSome then some "PLAIN" else none))
    ∧ (∀ env run st run' log ev, env.startup_new = some st →
        infinoted_config_reload env run = ReloadResult.success run' log ev →
        run'.connections = run.connections.map
          (infinoted_config_reload_update_connection_sasl_context
            st.sasl_context)) := by
  refine ⟨fun ctx cid => rfl, fun ctx cid sc sm => rfl, ?_⟩
  intro env run st run' log ev hs heq
  obtain ⟨st2, t6, t4, nr, ev2, hs2, hcommit⟩ :=
    reload_success_inv env run run' log ev heq
  rw [hs] at hs2
  obtain rfl : st = st2 := Option.some.inj hs2
  unfold infinoted_config_reload_commit at hcommit
  injection hcommit with h1 h2 h3
  rw [← h1, reload_commit_run_connections]

/-- Witness for C10: concrete instances of the frame property and of the
connection-list equation on a concrete successful reload. -/
theorem C10_sasl_propagation_frame_witness :
    infinoted_config_reload_update_connection_sasl_context (some 20)
        (InfXmlConnection.other 101) = InfXmlConnection.other 101
    ∧ env_plain.startup_new = some startup0
    ∧ (infinoted_config_reload env_plain run0).connectionsAfter
      = some (run0.connections.map
          (infinoted_config_reload_update_connection_sasl_context
            startup0.sasl_context)) := by
  refine ⟨C10_sasl_propagation_frame.1 (some 20) 101, rfl, ?_⟩
  have hc := C10_sasl_propagation_frame.2.2 env_plain run0 startup0
  rcases hres : infinoted_config_reload env_plain run0 with ⟨r, l, e⟩ | ⟨er, r2, ev2⟩ | ⟨k, ev2⟩
  · have hconn := hc r l e rfl hres
    simp [ReloadResult.connectionsAfter, hconn]
  · have hok : (infinoted_config_reload env_plain run0).isSuccess = true := rfl
    rw [hres] at hok
    exact absurd hok (by simp [ReloadResult.isSuccess])
  · have hok : (infinoted_config_reload env_plain run0).isSuccess = true := rfl
    rw [hres] at hok
    exact absurd hok (by simp [ReloadResult.isSuccess])

/-- Claim C7: when the new port equals the currently bound port, the
reload succeeds without creating, binding or opening any socket, and the
new credentials and security policy are applied in place to each existing
accepting server (same listener, updated fields), with the credentials set
strictly before the security policy. -/
theorem C7_port_unchanged_inplace_update (env : ReloadEnv) (run : InfinotedRun)
    (st : InfinotedStartup) (p : Nat)
    (hs : env.startup_new = some st)
    (hdh : (st.credentials.isSome && !env.dh_ensure_ok) = false)
    (haddr : listen_address_changed st.options.listen_address
      run.startup.options.listen_address = false)
    (hport : current_local_port run = some p)
    (heq : st.options.port = p)
    (hroot : run.storage_root_directory = st.options.root_directory) :
    (infinoted_config_reload env run).isSuccess = true
    ∧ (∀ f a q, ReloadEvent.newTcpServer f a q
        ∉ (infinoted_config_reload env run).events)
    ∧ (∀ f b, ReloadEvent.bindTcp f b ∉ (infinoted_config_reload env run).events)
    ∧ (∀ f b, ReloadEvent.openTcp f b ∉ (infinoted_config_reload env run).events)
    ∧ (∀ s6, run.xmpp6 = some s6 →
        List.Sublist
          [ReloadEvent.setCredentials s6.id st.credentials,
           ReloadEvent.setSecurityPolicy s6.id st.options.security_policy]
          (infinoted_config_reload env run).events
        ∧ (infinoted_config_reload env run).xmpp6After
          = some (some { s6 with
              credentials := st.credentials,
              security_policy := st.options.security_policy,
              sasl_context := st.sasl_context,
              sasl_mechanisms :=
                if st.sasl_context.isSome then some "PLAIN" else none }))
    ∧ (∀ s4, run.xmpp4 = some s4 →
        List.Sublist
          [ReloadEvent.setCredentials s4.id st.credentials,
           ReloadEvent.setSecurityPolicy s4.id st.options.security_policy]
          (infinoted_config_reload env run).events
        ∧ (infinoted_config_reload env run).xmpp4After
          = some (some { s4 with
              credentials := st.credentials,
              security_policy := st.options.security_policy,
              sasl_context := st.sasl_context,
              sasl_mechanisms :=
                if st.sasl_context.isSome then some "PLAIN" else none })) := by
  have h1 : infinoted_config_reload env run
      = infinoted_config_reload_bind env run st p := by
    simp [infinoted_config_reload, hs, hdh, haddr, hport]
  have h2 : infinoted_config_reload_bind env run st p
      = infinoted_config_reload_storage env run st none none [] := by
    unfold infinoted_config_reload_bind
    rw [if_neg (show ¬(st.options.port ≠ p) by simp [heq])]
  have h3 : infinoted_config_reload_storage env run st none none []
      = infinoted_config_reload_commit env run st none none none [] := by
    unfold infinoted_config_reload_storage
    rw [if_neg (show ¬(run.storage_root_directory ≠ st.options.root_directory) by
      simp [hroot])]
    rfl
  have hred := (h1.trans h2).trans h3
  rw [hred]
  rcases h6 : run.xmpp6 with _ | s6 <;> rcases h4 : run.xmpp4 with _ | s4
  · simp [current_local_port, h6, h4] at hport
  · have hev : (infinoted_config_reload_commit env run st none none none []).events
        = [ReloadEvent.setCredentials s4.id st.credentials,
           ReloadEvent.setSecurityPolicy s4.id st.options.security_policy] := by
      simp [infinoted_config_reload_commit, reload_replace_servers,
        ReloadResult.events, h6, h4]
    refine ⟨rfl, ?_, ?_, ?_, ?_, ?_⟩
    · intro f a q
      rw [hev]; simp
    · intro f b
      rw [hev]; simp
    · intro f b
      rw [hev]; simp
    · intro s6q hq
      exact absurd hq (by simp)
    · intro s4q hq
      obtain rfl : s4 = s4q := Option.some.inj hq
      refine ⟨?_, ?_⟩
      · rw [hev]
      · simp [infinoted_config_reload_commit, reload_commit_run,
          reload_replace_servers, ReloadResult.xmpp4After, h6, h4]
  · have hev : (infinoted_config_reload_commit env run st none none none []).events
        = [ReloadEvent.setCredentials s6.id st.credentials,
           ReloadEvent.setSecurityPolicy s6.id st.options.security_policy] := by
      simp [infinoted_config_reload_commit, reload_replace_servers,
        ReloadResult.events, h6, h4]
    refine ⟨rfl, ?_, ?_, ?_, ?_, ?_⟩
    · intro f a q
      rw [hev]; simp
    · intro f b
      rw [hev]; simp
    · intro f b
      rw [hev]; simp
    · intro s6q hq
      obtain rfl : s6 = s6q := Option.some.inj hq
      refine ⟨?_, ?_⟩
      · rw [hev]
      · simp [infinoted_config_reload_commit, reload_commit_run,
          reload_replace_servers, ReloadResult.xmpp6After, h6, h4]
    · intro s4q hq
      exact absurd hq (by simp)
  · have hev : (infinoted_config_reload_commit env run st none none none []).events
        = [ReloadEvent.setCredentials s6.id st.credentials,
           ReloadEvent.setSecurityPolicy s6.id st.options.security_policy,
           ReloadEvent.setCredentials s4.id st.credentials,
           ReloadEvent.setSecurityPolicy s4.id st.options.security_policy] := by
      simp [infinoted_config_reload_commit, reload_replace_servers,
        ReloadResult.events, h6, h4]
    refine ⟨rfl, ?_, ?_, ?_, ?_, ?_⟩
    · intro f a q
      rw [hev]; simp
    · intro f b
      rw [hev]; simp
    · intro f b
      rw [hev]; simp
    · intro s6q hq
      obtain rfl : s6 = s6q := Option.some.inj hq
      refine ⟨?_, ?_⟩
      · rw [hev]
        exact List.Sublist.cons₂ _ (List.Sublist.cons₂ _ (List.nil_sublist _))
      · simp [infinoted_config_reload_commit, reload_commit_run,
          reload_replace_servers, ReloadResult.xmpp6After, h6, h4]
    · intro s4q hq
      obtain rfl : s4 = s4q := Option.some.inj hq
      refine ⟨?_, ?_⟩
      · rw [hev]
        exact List.Sublist.cons _ (List.Sublist.cons _ (List.Sublist.refl _))
      · simp [infinoted_config_reload_commit, reload_commit_run,
          reload_replace_servers, ReloadResult.xmpp4After, h6, h4]

/-- Witness for C7: a concrete reload of the running pair with the same
port applies the new settings in place. -/
theorem C7_port_unchanged_inplace_update_witness :
    env_plain.startup_new = some startup0
    ∧ (startup0.credentials.isSome && !env_plain.dh_ensure_ok) = false
    ∧ listen_address_changed startup0.options.listen_address
        run0.startup.options.listen_address = false
    ∧ current_local_port run0 = some 6523
    ∧ startup0.options.port = 6523
    ∧ run0.storage_root_directory = startup0.options.root_directory
    ∧ ((infinoted_config_reload env_plain run0).isSuccess = true
      ∧ (∀ f a q, ReloadEvent.newTcpServer f a q
          ∉ (infinoted_config_reload env_plain run0).events)) := by
  refine ⟨rfl, rfl, rfl, rfl, rfl, rfl, ?_⟩
  have h := C7_port_unchanged_inplace_update env_plain run0 startup0 6523
    rfl rfl rfl rfl rfl rfl
  exact ⟨h.1, h.2.1⟩

/-- Claim C1 amended: when the port changed, both new sockets bind, and
exactly one of the two opens succeeds, the reload returns success, but
BOTH old listeners are removed from the pool and closed; the failing
family's old listener does not keep running — that family is simply absent
afterwards, and the succeeding family gets a freshly created listener
bound to the new port. -/
theorem C1_one_open_success_closes_both_old (env : ReloadEnv)
    (run : InfinotedRun) (st : InfinotedStartup) (s6 s4 : InfdXmppServer)
    (hs : env.startup_new = some st)
    (hdh : (st.credentials.isSome && !env.dh_ensure_ok) = false)
    (haddr : listen_address_changed st.options.listen_address
      run.startup.options.listen_address = false)
    (h6 : run.xmpp6 = some s6)
    (h4 : run.xmpp4 = some s4)
    (hne : st.options.port ≠ s6.tcp_local_port)
    (hb6 : env.bind6 = none)
    (hb4 : env.bind4 = none)
    (hroot : run.storage_root_directory = st.options.root_directory) :
    (∀ e6, env.open6 = some e6 → env.open4 = none →
      (infinoted_config_reload env run).isSuccess = true
      ∧ (infinoted_config_reload env run).xmpp6After = some none
      ∧ (infinoted_config_reload env run).xmpp4After
        = some (some { id := run.next_id,
                       tcp_local_port := st.options.port,
                       security_policy := st.options.security_policy,
                       credentials := st.credentials,
                       sasl_context := st.sasl_context,
                       sasl_mechanisms :=
                         if st.sasl_context.isSome then some "PLAIN" else none })
      ∧ ReloadEvent.closeServer s6.id ∈ (infinoted_config_reload env run).events
      ∧ ReloadEvent.closeServer s4.id ∈ (infinoted_config_reload env run).events)
    ∧ (∀ e4, env.open6 = none → env.open4 = some e4 →
      (infinoted_config_reload env run).isSuccess = true
      ∧ (infinoted_config_reload env run).xmpp4After = some none
      ∧ (infinoted_config_reload env run).xmpp6After
        = some (some { id := run.next_id,
                       tcp_local_port := st.options.port,
                       security_policy := st.options.security_policy,
                       credentials := st.credentials,
                       sasl_context := st.sasl_context,
                       sasl_mechanisms :=
                         if st.sasl_context.isSome then some "PLAIN" else none })
      ∧ ReloadEvent.closeServer s6.id ∈ (infinoted_config_reload env run).events
      ∧ ReloadEvent.closeServer s4.id ∈ (infinoted_config_reload env run).events) := by
  constructor
  · intro e6 ho6 ho4
    refine ⟨?_, ?_, ?_, ?_, ?_⟩ <;>
      simp [infinoted_config_reload, hs, hdh, haddr, current_local_port,
        h6, h4, hne, hb6, hb4, ho6, ho4, hroot,
        infinoted_config_reload_bind, infinoted_config_reload_storage,
        infinoted_config_reload_open, infinoted_config_reload_commit,
        reload_replace_servers, reload_commit_run,
        ReloadResult.isSuccess, ReloadResult.events,
        ReloadResult.xmpp6After, ReloadResult.xmpp4After]
  · intro e4 ho6 ho4
    refine ⟨?_, ?_, ?_, ?_, ?_⟩ <;>
      simp [infinoted_config_reload, hs, hdh, haddr, current_local_port,
        h6, h4, hne, hb6, hb4, ho6, ho4, hroot,
        infinoted_config_reload_bind, infinoted_config_reload_storage,
        infinoted_config_reload_open, infinoted_config_reload_commit,
        reload_replace_servers, reload_commit_run,
        ReloadResult.isSuccess, ReloadResult.events,
        ReloadResult.xmpp6After, ReloadResult.xmpp4After]

/-- Witness for the amended C1: the concrete reload in which only the v4
open succeeds closes both old listeners and installs a fresh v4 listener
on the new port. -/
theorem C1_one_open_success_closes_both_old_witness :
    env_C1.startup_new = some startup_port_changed
    ∧ env_C1.open6 = some 7
    ∧ env_C1.open4 = none
    ∧ ((infinoted_config_reload env_C1 run0).isSuccess = true
      ∧ (infinoted_config_reload env_C1 run0).xmpp6After = some none
      ∧ (infinoted_config_reload env_C1 run0).xmpp4After
        = some (some { id := run0.next_id,
                       tcp_local_port := startup_port_changed.options.port,
                       security_policy := startup_port_changed.options.security_policy,
                       credentials := startup_port_changed.credentials,
                       sasl_context := startup_port_changed.sasl_context,
                       sasl_mechanisms :=
                         if startup_port_changed.sasl_context.isSome
                         then some "PLAIN" else none })
      ∧ ReloadEvent.closeServer old6.id ∈ (infinoted_config_reload env_C1 run0).events
      ∧ ReloadEvent.closeServer old4.id ∈ (infinoted_config_reload env_C1 run0).events) :=
  ⟨rfl, rfl, rfl,
   (C1_one_open_success_closes_both_old env_C1 run0 startup_port_changed
     old6 old4 rfl rfl rfl rfl rfl (by decide) rfl rfl rfl).1 7 rfl rfl⟩

/-- Claim C5 amended: when the port changed, a bind failure on one leg is
tolerated when the other leg binds (and subsequently opens); when both
legs fail to bind the reload aborts, leaving the state untouched, and the
error it reports is the v4 bind error — the v6 bind error, chronologically
the first, is discarded. -/
theorem C5_bind_failure_policy (env : ReloadEnv) (run : InfinotedRun)
    (st : InfinotedStartup) (p : Nat)
    (hs : env.startup_new = some st)
    (hdh : (st.credentials.isSome && !env.dh_ensure_ok) = false)
    (haddr : listen_address_changed st.options.listen_address
      run.startup.options.listen_address = false)
    (hport : current_local_port run = some p)
    (hne : st.options.port ≠ p) :
    (∀ e6 e4, env.bind6 = some e6 → env.bind4 = some e4 →
      (infinoted_config_reload env run).errorOf
        = some (ReloadError.bindFailed e4)
      ∧ (infinoted_config_reload env run).runAfter = some run)
    ∧ (∀ e6, env.bind6 = some e6 → env.bind4 = none →
        run.storage_root_directory = st.options.root_directory →
        env.open4 = none →
        (infinoted_config_reload env run).isSuccess = true)
    ∧ (∀ e4, env.bind6 = none → env.bind4 = some e4 →
        run.storage_root_directory = st.options.root_directory →
        env.open6 = none →
        (infinoted_config_reload env run).isSuccess = true) := by
  refine ⟨?_, ?_, ?_⟩
  · intro e6 e4 hb6 hb4
    constructor <;>
      simp [infinoted_config_reload, hs, hdh, haddr, hport, hne,
        hb6, hb4, infinoted_config_reload_bind,
        ReloadResult.errorOf, ReloadResult.runAfter]
  · intro e6 hb6 hb4 hroot ho4
    simp [infinoted_config_reload, hs, hdh, haddr, hport, hne,
      hb6, hb4, hroot, ho4, infinoted_config_reload_bind,
      infinoted_config_reload_storage, infinoted_config_reload_open,
      reload_commit_isSuccess]
  · intro e4 hb6 hb4 hroot ho6
    simp [infinoted_config_reload, hs, hdh, haddr, hport, hne,
      hb6, hb4, hroot, ho6, infinoted_config_reload_bind,
      infinoted_config_reload_storage, infinoted_config_reload_open,
      reload_commit_isSuccess]

/-- Witness for the amended C5: with v6 bind error 100 and v4 bind error
200 the reload reports error 200 and returns the state unchanged. -/
theorem C5_bind_failure_policy_witness :
    env_C5.bind6 = some 100
    ∧ env_C5.bind4 = some 200
    ∧ ((infinoted_config_reload env_C5 run0).errorOf
        = some (ReloadError.bindFailed 200)
      ∧ (infinoted_config_reload env_C5 run0).runAfter = some run0) :=
  ⟨rfl, rfl,
   (C5_bind_failure_policy env_C5 run0 startup_port_changed 6523
     rfl rfl rfl rfl (by decide)).1 100 200 rfl rfl⟩
